import Mathlib

/-!
Verification of the drishti event pipeline against its specification.

The segmenter is embedded from `src/video_splitter.py` (`split_video`),
the analyzer-output parser from `src/video_analyzer.py`
(`run_gemini_analysis_sync`), the event handler and event-store read from
`src/drishti_agent.py`, and the publish payloads from
`src/drishti_agent.py` (`dispatch_unit`) and `src/video_splitter.py`
(`main`).  The trend predictor and dispatch-decision engine exist in the
source only as placeholder tools (TODO bodies) plus LLM prompt strings,
so they are modelled from the specification (sections 4.2 and 4.3), as
marked on their definitions.

Durations and timestamps are rational numbers (seconds); Python floats
are modelled exactly by ℚ, and `datetime` timestamps by rational seconds
since an arbitrary epoch.
-/

/-- One produced chunk window.  `start_time` is the integer offset the loop
state variable holds in `split_video` (it starts at 0 and advances by the
integer `step`); `end_time` is `start_time + current_chunk_duration`, a
float in the source.  `start_utc`/`end_utc` model
`start_datetime + timedelta(seconds=...)`. -/
structure TimeWindow where
  start_time : ℤ
  end_time : ℚ
  start_utc : ℚ
  end_utc : ℚ

/-- The `while True` loop of `split_video` (src/video_splitter.py lines
81-129), with an explicit fuel argument standing for the (terminating)
iteration count.  Per iteration the source computes
`current_chunk_duration = min(chunk_duration, total_duration - start_time)`,
breaks when `current_chunk_duration < 0.5 and counter > 1`, breaks when
`start_time >= total_duration or current_chunk_duration <= 0`, and
otherwise emits the window `[start_time, start_time + current_chunk_duration)`
and advances `start_time` by `step = chunk_duration - overlap`. -/
def chunkLoop (chunk_duration overlap : ℤ) (total_duration : ℚ) :
    ℕ → ℤ → ℕ → List (ℤ × ℚ)
  | 0, _, _ => []
  | fuel+1, start_time, counter =>
    if min (chunk_duration : ℚ) (total_duration - (start_time : ℚ)) < 0.5 ∧
        1 < counter then []
    else if (start_time : ℚ) ≥ total_duration ∨
        min (chunk_duration : ℚ) (total_duration - (start_time : ℚ)) ≤ 0 then []
    else (start_time,
        (start_time : ℚ) +
          min (chunk_duration : ℚ) (total_duration - (start_time : ℚ))) ::
      chunkLoop chunk_duration overlap total_duration fuel
        (start_time + (chunk_duration - overlap)) (counter + 1)

/-- The window sequence `split_video` produces for a given total duration:
the loop run from `start_time = 0`, `counter = 1`.  The fuel `⌈t⌉.toNat + 1`
is an upper bound on the iteration count whenever
`0 ≤ overlap < chunk_duration`: the loop stops on its own conditions before
the fuel runs out (see `enoughFuel` and `chunkLoop_last` below). -/
def segmentWindows (chunk_duration overlap : ℤ) (total_duration : ℚ) :
    List (ℤ × ℚ) :=
  chunkLoop chunk_duration overlap total_duration
    ((⌈total_duration⌉).toNat + 1) 0 1

/-- The pure core of `split_video` (src/video_splitter.py lines 23-132):
the parameter guard `overlap >= chunk_duration` raises
`ValueError("Overlap must be smaller than chunk duration.")` (the spec's
ConfigError) before the loop; otherwise the loop runs and each emitted
chunk carries UTC bounds `start_utc_time + offset`.  File-system access,
ffprobe (which supplies `total_duration`) and ffmpeg are external
collaborators and are outside this embedding. -/
def split_video (chunk_duration overlap : ℤ) (total_duration : ℚ)
    (start_utc_time : ℚ) : Except String (List TimeWindow) :=
  if overlap ≥ chunk_duration then
    Except.error "Overlap must be smaller than chunk duration."
  else
    Except.ok ((segmentWindows chunk_duration overlap total_duration).map
      (fun w =>
        { start_time := w.1
          end_time := w.2
          start_utc := start_utc_time + (w.1 : ℚ)
          end_utc := start_utc_time + w.2 }))

/-- Coverage property the specification claims for the segmenter (section 8,
first bullet), stated in the spec's own words: every instant of
`[0, total_duration)` lies inside some produced window.  This is the
claim-side definition, to be compared with the behaviour of
`segmentWindows`. -/
def segmenterCoversClaim (chunk_duration overlap : ℤ)
    (total_duration : ℚ) : Prop :=
  ∀ q : ℚ, 0 ≤ q → q < total_duration →
    ∃ w ∈ segmentWindows chunk_duration overlap total_duration,
      (w.1 : ℚ) ≤ q ∧ q < w.2

/-- Fuel bound used in the loop lemmas: the loop at state `start_time = s`
stops on its own within `fuel` further iterations when
`(⌈t⌉ - s).toNat < fuel` and the step is positive. -/
def enoughFuel (total_duration : ℚ) (start_time : ℤ) (fuel : ℕ) : Prop :=
  (⌈total_duration⌉ - start_time).toNat < fuel

/-- Crowd density scale of an AssessmentRecord (spec section 3), ordinal
`low < medium < high < severe`. -/
inductive CrowdDensity
  | low
  | medium
  | high
  | severe
deriving DecidableEq

/-- Crowd flow values of an AssessmentRecord (spec section 3). -/
inductive CrowdFlow
  | unrestricted
  | moderately_restricted
  | severely_restricted
deriving DecidableEq

/-- Safety levels of an AssessmentRecord (spec section 3). -/
inductive SafetyLevel
  | safe
  | moderate_risk
  | high_risk
  | critical
deriving DecidableEq

/-- Unit recommended by the trend predictor or chosen by the dispatch
engine (spec section 3, PredictedState / DispatchDecision). -/
inductive RecommendedUnit
  | none
  | police
  | medical
  | fire
deriving DecidableEq

/-- One validated assessment record (spec section 3): the normalized form
of the analyzer's loosely-typed per-window JSON. -/
structure AssessmentRecord where
  window : TimeWindow
  crowd_density : CrowdDensity
  crowd_flow : CrowdFlow
  estimated_count : Option ℕ
  fire_smoke_detected : Bool
  congested_exits : Bool
  safety_level : SafetyLevel
  needs_intervention : Bool
  notes : String

/-- Ordinal rank of the density scale used by the trend rules. -/
def densityRank : CrowdDensity → ℕ
  | CrowdDensity.low => 0
  | CrowdDensity.medium => 1
  | CrowdDensity.high => 2
  | CrowdDensity.severe => 3

/-- Forward-looking prediction for the next window (spec section 3). -/
structure PredictedState where
  density_increasing : Bool
  restricted_movement : Bool
  fire_or_smoke : Bool
  recommended_unit : RecommendedUnit
  rationale : String
  summary : String
deriving DecidableEq

/-- The bounded context of the trend predictor: only the latest 5 records
of the history are considered, older history is ignored by design (spec
section 4.2); the history is ordered oldest to newest. -/
def predictWindow (history : List AssessmentRecord) : List AssessmentRecord :=
  history.drop (history.length - 5)

/-- Modelled from the spec: the TrendPredictor's `predict` (spec section
4.2).  The prediction logic is missing from the source: in
`src/agents/predictor.py` the tool `predict_next_frame` is a TODO
placeholder returning constants, and the actual rules exist only as an LLM
prompt string in `create_qualitative_summary_agent`
(src/drishti_agent.py).  Rules, first match wins: (1) any record of the
window has fire or smoke -> fire unit; (2) most recent record critical and
severely restricted -> medical unit; (3) density of the newest record
ranks strictly above the earliest record's and flow restricted -> police
unit; (4) otherwise no unit.  `density_increasing` is the ordinal density
comparison newest vs oldest, `restricted_movement` is the newest record's
flow not being unrestricted; an empty history yields the quiescent state
and never fails. -/
def predict (history : List AssessmentRecord) : PredictedState :=
  match predictWindow history with
  | [] =>
    { density_increasing := false
      restricted_movement := false
      fire_or_smoke := false
      recommended_unit := RecommendedUnit.none
      rationale := ""
      summary := "" }
  | oldest :: rest =>
    let newest := rest.getLastD oldest
    let fire := (oldest :: rest).any (fun r => r.fire_smoke_detected)
    let densInc :=
      densityRank oldest.crowd_density < densityRank newest.crowd_density
    let unit :=
      if fire then RecommendedUnit.fire
      else if newest.safety_level = SafetyLevel.critical ∧
          newest.crowd_flow = CrowdFlow.severely_restricted then
        RecommendedUnit.medical
      else if densInc ∧ (newest.crowd_flow = CrowdFlow.moderately_restricted ∨
          newest.crowd_flow = CrowdFlow.severely_restricted) then
        RecommendedUnit.police
      else RecommendedUnit.none
    { density_increasing := decide densInc
      restricted_movement := decide (newest.crowd_flow ≠ CrowdFlow.unrestricted)
      fire_or_smoke := fire
      recommended_unit := unit
      rationale := ""
      summary := "" }

/-- Shape of the dict returned by the placeholder tool
`CrowdDensityAnalysisAgent.predict_next_frame` in src/agents/predictor.py. -/
structure FramePrediction where
  crowd_density_increase : Bool
  restricted_movements : Bool
  fire_smoke_detected : Bool
  unit_to_dispatch : String
  recommendations : String
  summary : String

/-- `CrowdDensityAnalysisAgent.fetch_latest_5_frames`
(src/agents/predictor.py lines 34-42): the in-memory retrieval is a TODO
placeholder that returns the empty list. -/
def fetch_latest_5_frames : List AssessmentRecord := []

/-- `CrowdDensityAnalysisAgent.predict_next_frame`
(src/agents/predictor.py lines 44-69): fetches the (empty) latest frames
and returns the hard-coded placeholder response. -/
def predict_next_frame : FramePrediction :=
  let _latest_frames := fetch_latest_5_frames
  { crowd_density_increase := false
    restricted_movements := false
    fire_smoke_detected := false
    unit_to_dispatch := "None"
    recommendations := "No immediate action required."
    summary := "Situation is normal based on recent trends." }

/-- Concrete assessment record whose only raised flag is fire/smoke. -/
def fireRecord : AssessmentRecord :=
  { window := { start_time := 0, end_time := 5, start_utc := 0, end_utc := 5 }
    crowd_density := CrowdDensity.low
    crowd_flow := CrowdFlow.unrestricted
    estimated_count := Option.none
    fire_smoke_detected := true
    congested_exits := false
    safety_level := SafetyLevel.safe
    needs_intervention := false
    notes := "" }

/-- Unit type of an entry of the recent-dispatch ledger (spec section 3):
ledger entries always carry a concrete unit. -/
inductive DispatchUnitType
  | police
  | medical
  | fire
deriving DecidableEq

/-- One entry of the append-only RecentDispatch ledger (spec section 3). -/
structure RecentDispatch where
  unit_type : DispatchUnitType
  location : String
  issued_at : ℚ

/-- Priority of a dispatch decision (spec section 3). -/
inductive DispatchPriority
  | low
  | medium
  | high
deriving DecidableEq

/-- A dispatch decision (spec section 3): one per triggering record. -/
structure DispatchDecision where
  unit_type : RecommendedUnit
  location : String
  priority : DispatchPriority
  suppressed : Bool
  reason : String

/-- View of a ledger unit as a recommended unit (ledger entries never
carry "none"). -/
def DispatchUnitType.toRecommended : DispatchUnitType → RecommendedUnit
  | DispatchUnitType.police => RecommendedUnit.police
  | DispatchUnitType.medical => RecommendedUnit.medical
  | DispatchUnitType.fire => RecommendedUnit.fire

/-- Case-folded form of a location string, for the spec's case-insensitive
exact match of locations (no fuzzy geo-matching). -/
def lowerLoc (s : String) : List Char := s.data.map Char.toLower

/-- Modelled from the spec: the deduplication test of the DispatchEngine
(spec section 4.3).  The dispatch tools in the source are placeholders
(`dispatch_unit` publishes unconditionally and `check_recent_dispatches`
returns mock data, src/drishti_agent.py lines 150-188), so the test is
taken from the spec's words: an entry matches when it has the same unit
type and the same location up to case and was issued within the cool-down
window before `now` (boundary reading: `now - cooldown < issued_at ≤ now`). -/
def isDuplicate (unit : RecommendedUnit) (location : String)
    (recent : List RecentDispatch) (now cooldown : ℚ) : Bool :=
  recent.any (fun r =>
    decide (r.unit_type.toRecommended = unit ∧
      lowerLoc r.location = lowerLoc location ∧
      now - cooldown < r.issued_at ∧ r.issued_at ≤ now))

/-- Default cool-down of ten minutes, in seconds (spec section 4.3). -/
def defaultCooldown : ℚ := 600

/-- Unit selection of the dispatch engine (spec section 4.3): rules 4.2
(1)-(3) applied to a single AssessmentRecord, or pass-through of a
PredictedState's recommended unit. -/
def triggerUnit : AssessmentRecord ⊕ PredictedState → RecommendedUnit
  | Sum.inl r => (predict [r]).recommended_unit
  | Sum.inr p => p.recommended_unit

/-- Safety level carried by a trigger, when it has one. -/
def triggerSafety : AssessmentRecord ⊕ PredictedState → Option SafetyLevel
  | Sum.inl r => some r.safety_level
  | Sum.inr _ => Option.none

/-- Modelled from the spec: `DispatchEngine.decide` (spec section 4.3);
the source's dispatch tools are unimplemented placeholders and spec
section 9 states this contract is what replaces them.  Priority: critical
safety or fire unit gives high, high risk gives medium, otherwise low.  A
"none" unit is always suppressed with reason "no_unit_required"; a
duplicate within the cool-down is suppressed with reason "duplicate";
otherwise the decision is not suppressed. -/
def decideDispatch (trigger : AssessmentRecord ⊕ PredictedState)
    (location : String) (recent : List RecentDispatch) (now cooldown : ℚ) :
    DispatchDecision :=
  let unit := triggerUnit trigger
  let priority :=
    if triggerSafety trigger = some SafetyLevel.critical ∨
        unit = RecommendedUnit.fire then DispatchPriority.high
    else if triggerSafety trigger = some SafetyLevel.high_risk then
      DispatchPriority.medium
    else DispatchPriority.low
  if unit = RecommendedUnit.none then
    { unit_type := unit
      location := location
      priority := priority
      suppressed := true
      reason := "no_unit_required" }
  else if isDuplicate unit location recent now cooldown then
    { unit_type := unit
      location := location
      priority := priority
      suppressed := true
      reason := "duplicate" }
  else
    { unit_type := unit
      location := location
      priority := priority
      suppressed := false
      reason := "dispatched" }

/-- A predicted state recommending the police unit, used as a concrete
dispatch trigger. -/
def policePrediction : PredictedState :=
  { density_increasing := true
    restricted_movement := true
    fire_or_smoke := false
    recommended_unit := RecommendedUnit.police
    rationale := ""
    summary := "" }

/-- A one-entry ledger: police were sent to "platform 3" at time 100s. -/
def platformLedger : List RecentDispatch :=
  [{ unit_type := DispatchUnitType.police
     location := "platform 3"
     issued_at := 100 }]

/-- The JSON-extraction step of `run_gemini_analysis_sync`
(src/video_analyzer.py lines 52-60): the DOTALL regex search for a brace
delimited block takes the substring from the first opening brace that has
a closing brace somewhere after it (leftmost match) to the last closing
brace of the text (greedy match); if there is no such block the function
reports that no JSON object was found. -/
def extract_json (s : List Char) : Option (List Char) :=
  let fromFirst := s.dropWhile (fun ch => ch ≠ '\x7b')
  let toLast := (fromFirst.reverse.dropWhile (fun ch => ch ≠ '\x7d')).reverse
  if toLast.isEmpty then Option.none else some toLast

/-- Outcome of the parsing step of `run_gemini_analysis_sync`: the
extracted JSON text, or the error record
`"No JSON object found in response."` (the spec's MalformedAnalysisError)
when no block is extractable. -/
def parse_analysis (s : List Char) : Except String (List Char) :=
  match extract_json s with
  | some j => Except.ok j
  | Option.none => Except.error "No JSON object found in response."

/-- Opening markdown fence the model may wrap its JSON in (Scenario D). -/
def fenceOpen : List Char := "```json\n".data

/-- Closing markdown fence the model may wrap its JSON in (Scenario D). -/
def fenceClose : List Char := "\n```".data

/-- A bare JSON object, as character data. -/
def jsonSample : List Char := "\x7b \"crowd_density\": \"low\" \x7d".data

/-- Analyzer output containing no JSON object at all. -/
def noJsonSample : List Char := "the model returned prose only".data

/-- Payload dict built by `dispatch_unit` (src/drishti_agent.py lines
150-167), in insertion order: unit_type, location, priority, timestamp
(`datetime.now().isoformat()` - the current clock serialized with no
timezone suffix), and status "dispatched". -/
def dispatch_payload (unit_type location priority timestamp_iso : String) :
    List (String × String) :=
  [("unit_type", unit_type), ("location", location), ("priority", priority),
   ("timestamp", timestamp_iso), ("status", "dispatched")]

/-- Keys and values of a raw analyzer output dict (the shape produced by
the prompt of src/video_analyzer.py); values are kept as strings. -/
structure RawAnalysis where
  crowd_density : String
  crowd_flow : String
  estimated_count : String
  fire_smoke_detected : String
  congested_entry_exits : String
  safety_level : String
  needs_security_intervention : String
  additional_observations : String

/-- The analyzer dict as the JSON object `json.dumps(analysis)` serializes
in `main` of src/video_splitter.py. -/
def analysis_payload (a : RawAnalysis) : List (String × String) :=
  [("crowd_density", a.crowd_density), ("crowd_flow", a.crowd_flow),
   ("estimated_count", a.estimated_count),
   ("fire_smoke_detected", a.fire_smoke_detected),
   ("congested_entry_exits", a.congested_entry_exits),
   ("safety_level", a.safety_level),
   ("needs_security_intervention", a.needs_security_intervention),
   ("additional_observations", a.additional_observations)]

/-- The publish step of `main` (src/video_splitter.py lines 186-191): the
raw analysis dict is published to the dispatcher topic whenever the
analysis says intervention is needed; otherwise nothing is published. -/
def splitter_publish (a : RawAnalysis) : Option (List (String × String)) :=
  if a.needs_security_intervention = "yes" then some (analysis_payload a)
  else Option.none

/-- The payload shape spec section 6 claims for everything handed to the
publish channel: exactly the five dispatch fields, with status
"dispatched".  This is the claim-side definition, to be compared with the
payloads the code actually publishes. -/
def dispatchPayloadShapeClaim (p : List (String × String)) : Prop :=
  p.map Prod.fst =
    ["unit_type", "location", "priority", "timestamp", "status"] ∧
  p.lookup "status" = some "dispatched"

/-- A raw analysis that needs intervention (it triggers the splitter's
publish). -/
def severeAnalysis : RawAnalysis :=
  { crowd_density := "severe"
    crowd_flow := "severely_restricted"
    estimated_count := "500"
    fire_smoke_detected := "no"
    congested_entry_exits := "yes"
    safety_level := "critical"
    needs_security_intervention := "yes"
    additional_observations := "crowd fills the concourse" }

/-- Keys of the pydantic model `EventData` (src/drishti_agent.py lines
23-36): all thirteen fields are required. -/
def requiredEventFields : List String :=
  ["chunk_path", "start_time", "end_time", "start_utc_time", "end_utc_time",
   "crowd_density", "crowd_flow", "estimated_count", "fire_smoke_detected",
   "congested_entry_exits", "safety_level", "needs_security_intervention",
   "additional_observations"]

/-- Validation step of `SecurityMultiAgentSystem.handle_event`
(src/drishti_agent.py lines 410-415): `EventData(**event_data)` succeeds
exactly when every required field is present (value typing abstracted:
values are modelled as strings). -/
def validate_event (e : List (String × String)) : Bool :=
  requiredEventFields.all (fun k => (e.map Prod.fst).contains k)

/-- `SecurityMultiAgentSystem.handle_event` (src/drishti_agent.py lines
406-437): a record failing validation makes the handler return the error
response immediately - the recent history is not consulted and no analysis
happens.  A valid record is combined with the recent events
(`[event_data] + recent_events`) and handed to the analysis agent; that
call is an external LLM collaborator, so the handler's success value is
modelled as the combined list it hands over. -/
def handle_event (e : List (String × String))
    (recent : List (List (String × String))) :
    Except String (List (List (String × String))) :=
  if validate_event e then Except.ok (e :: recent)
  else Except.error "Invalid event data structure"

/-- The per-chunk analysis loop of `main` (src/video_splitter.py lines
163-182): a chunk whose analysis contains an "error" key, or misses
"needs_security_intervention", is skipped with a printed reason and the
loop continues with the remaining chunks; otherwise the chunk and analysis
dicts are merged (their key sets are disjoint) and appended to the
results. -/
def process_chunks
    (results : List (List (String × String) × List (String × String))) :
    List (List (String × String)) :=
  results.filterMap (fun ca =>
    if (ca.2.map Prod.fst).contains "error" then Option.none
    else if ¬ (ca.2.map Prod.fst).contains "needs_security_intervention" then
      Option.none
    else some (ca.1 ++ ca.2))

/-- An event record with every required field present. -/
def goodEventRecord : List (String × String) :=
  requiredEventFields.map (fun k => (k, "v"))

/-- A malformed event record: only `chunk_path` is present. -/
def badEventRecord : List (String × String) :=
  [("chunk_path", "video_chunks/chunk_001.mp4")]

/-- A chunk dict, as produced by the splitter. -/
def chunkRecord : List (String × String) :=
  [("chunk_path", "video_chunks/chunk_001.mp4")]

/-- A well-formed analysis dict for the chunk loop. -/
def okAnalysisRecord : List (String × String) :=
  [("needs_security_intervention", "no")]

/-- A failed analysis dict (carries the "error" key). -/
def errAnalysisRecord : List (String × String) :=
  [("error", "analyzer failed")]

/-- `FirestoreService.get_recent_events` (src/drishti_agent.py lines
77-93): the Firestore query (ordering by `end_utc_time` descending and
limiting, both executed by the external store) streams event dicts; the
whole access is wrapped in try/except and any backend failure is logged
and turned into the empty list instead of propagating.  The backend
outcome is the explicit argument. -/
def get_recent_events (limit : ℕ)
    (backend : Except String (List (List (String × String)))) :
    List (List (String × String)) :=
  match backend with
  | Except.ok docs => docs.take limit
  | Except.error _ => []

/-! SECTION: theorems -/

/-- Evaluation of the segmenter on Scenario A's inputs: `total_duration=9`,
`chunk_duration=5`, `overlap=1` gives three windows, not two. -/
theorem segmentWindows_9_5_1 :
    segmentWindows 5 1 9 = [(0, 5), (4, 9), (8, 9)] := by
  norm_num [segmentWindows, chunkLoop, min_def]

/-- C1 counterexample: with `total_duration=9`, `chunk_duration=5`,
`overlap=1` and `start_utc = 0`, the segmenter does **not** return exactly
the two windows `[0,5)` and `[4,9)`: a third window starting at offset 8 is
emitted, because its remaining span is `1s ≥ 0.5s`, so neither stop
condition fires at offset 8. -/
theorem scenarioA_two_windows_refuted :
    split_video 5 1 9 0 ≠ Except.ok
      [{ start_time := 0, end_time := 5, start_utc := 0, end_utc := 5 },
       { start_time := 4, end_time := 9, start_utc := 4, end_utc := 9 }] := by
  simp [split_video, segmentWindows_9_5_1]

/-- C1 amended: `split_video(total_duration=9, chunk_duration=5, overlap=1,
start_utc=T)` returns exactly three windows `[0,5)`, `[4,9)`, `[8,9)`; the
second window's UTC bounds are `T+4s .. T+9s`; a third window starting at
offset 8 **is** emitted since its remaining span `1s` is at least the
`0.5s` minimum. -/
theorem scenarioA_three_windows (T : ℚ) :
    split_video 5 1 9 T = Except.ok
      [{ start_time := 0, end_time := 5, start_utc := T, end_utc := T + 5 },
       { start_time := 4, end_time := 9, start_utc := T + 4, end_utc := T + 9 },
       { start_time := 8, end_time := 9, start_utc := T + 8, end_utc := T + 9 }] := by
  norm_num [split_video, segmentWindows_9_5_1]

/-- C6: whenever `overlap ≥ chunk_duration`, `split_video` fails with the
configuration error before the segmentation loop runs: the result is the
`ValueError` message (the spec's ConfigError) and no window list is
produced. -/
theorem split_video_overlap_guard (chunk_duration overlap : ℤ)
    (total_duration start_utc_time : ℚ)
    (h : overlap ≥ chunk_duration) :
    split_video chunk_duration overlap total_duration start_utc_time =
      Except.error "Overlap must be smaller than chunk duration." := by
  simp [split_video, h]

/-- C6 witness: the guard fires at the concrete call
`split_video(chunk_duration=5, overlap=5, total_duration=9, start_utc=0)`. -/
theorem split_video_overlap_guard_witness :
    split_video 5 5 9 0 =
      Except.error "Overlap must be smaller than chunk duration." :=
  split_video_overlap_guard 5 5 9 0 (le_refl 5)

/-- Inversion for a loop step that emitted a window: the head carries the
current offset, its end is `start + min(chunk, total - start)`, the guards
were false, and the tail is the loop at the advanced offset. -/
theorem chunkLoop_cons_inv {c o : ℤ} {t : ℚ} {fuel : ℕ} {s : ℤ} {k : ℕ}
    {w : ℤ × ℚ} {rest : List (ℤ × ℚ)}
    (h : chunkLoop c o t fuel s k = w :: rest) :
    w.1 = s ∧ w.2 = (s : ℚ) + min (c : ℚ) (t - (s : ℚ)) ∧
      (s : ℚ) < t ∧ 0 < min (c : ℚ) (t - (s : ℚ)) ∧
      rest = chunkLoop c o t (fuel - 1) (s + (c - o)) (k + 1) := by
  cases fuel with
  | zero => simp [chunkLoop] at h
  | succ n =>
    rw [chunkLoop] at h
    split_ifs at h with hg1 hg2
    push_neg at hg2
    injection h with hw hrest
    subst hw
    exact ⟨rfl, rfl, hg2.1, hg2.2, by simpa using hrest.symm⟩

/-- When the loop recurses (so the current offset is still below the total
duration) the fuel bound is maintained at the advanced offset. -/
theorem enoughFuel_step {c o : ℤ} {t : ℚ} {fuel : ℕ} {s : ℤ}
    (hf : enoughFuel t s (fuel + 1)) (hst : (s : ℚ) < t) (hstep : 1 ≤ c - o) :
    enoughFuel t (s + (c - o)) fuel := by
  have hs : s < ⌈t⌉ := Int.lt_ceil.mpr hst
  unfold enoughFuel at hf ⊢
  omega

/-- Every window the loop emits starts strictly before the total duration
and ends at `start + min(chunk, total - start)`. -/
theorem chunkLoop_mem {c o : ℤ} {t : ℚ} :
    ∀ (fuel : ℕ) (s : ℤ) (k : ℕ), ∀ w ∈ chunkLoop c o t fuel s k,
      (w.1 : ℚ) < t ∧ w.2 = (w.1 : ℚ) + min (c : ℚ) (t - (w.1 : ℚ)) := by
  intro fuel
  induction fuel with
  | zero => intro s k w hw; simp [chunkLoop] at hw
  | succ n ih =>
    intro s k w hw
    rcases hl : chunkLoop c o t (n + 1) s k with _ | ⟨a, rest⟩
    · rw [hl] at hw; simp at hw
    · obtain ⟨ha1, ha2, hst, _, hrest⟩ := chunkLoop_cons_inv hl
      rw [hl] at hw
      rcases List.mem_cons.mp hw with hwa | hwr
      · subst hwa; exact ⟨ha1 ▸ hst, by rw [ha1, ha2]⟩
      · have hrest' : rest = chunkLoop c o t n (s + (c - o)) (k + 1) := by
          simpa using hrest
        exact ih (s + (c - o)) (k + 1) w (hrest' ▸ hwr)

/-- Consecutive emitted windows: the second starts exactly one step after
the first and no later than the first window's end (no gap). -/
theorem chunkLoop_chain {c o : ℤ} {t : ℚ} (h0 : 0 ≤ o) :
    ∀ (fuel : ℕ) (s : ℤ) (k : ℕ),
      List.Chain' (fun a b => b.1 = a.1 + (c - o) ∧ (b.1 : ℚ) ≤ a.2)
        (chunkLoop c o t fuel s k) := by
  intro fuel
  induction fuel with
  | zero => intro s k; simp [chunkLoop]
  | succ n ih =>
    intro s k
    rcases hl : chunkLoop c o t (n + 1) s k with _ | ⟨a, rest⟩
    · simp
    · obtain ⟨ha1, ha2, hst, _, hrest⟩ := chunkLoop_cons_inv hl
      have hrest' : rest = chunkLoop c o t n (s + (c - o)) (k + 1) := by
        simpa using hrest
      refine List.chain'_cons'.mpr ⟨?_, hrest' ▸ ih (s + (c - o)) (k + 1)⟩
      intro b hb
      rcases hr : rest with _ | ⟨b', rest'⟩
      · rw [hr] at hb; simp at hb
      · rw [hr] at hb
        simp only [List.head?_cons, Option.mem_some_iff] at hb
        obtain ⟨hb1, _, hbt, _, _⟩ := chunkLoop_cons_inv (hrest'.symm.trans hr)
        subst hb
        refine ⟨by rw [hb1, ha1], ?_⟩
        rw [hb1, ha2]
        push_cast
        push_cast at hbt
        have hoq : (0 : ℚ) ≤ (o : ℚ) := by exact_mod_cast h0
        exact add_le_add_left (le_min (by linarith) (by linarith)) _

/-- With enough fuel the loop's last emitted window ends within `0.5s` of
the total duration (and never past it): the loop only stops once the
remaining span past the last window is below the `0.5s` minimum. -/
theorem chunkLoop_last {c o : ℤ} {t : ℚ} (h0 : 0 ≤ o) (h1 : o < c) :
    ∀ (fuel : ℕ) (s : ℤ) (k : ℕ), 1 ≤ k → enoughFuel t s fuel →
      ∀ z, (chunkLoop c o t fuel s k).getLast? = some z →
        t - z.2 < 0.5 ∧ z.2 ≤ t := by
  intro fuel
  induction fuel with
  | zero => intro s k _ _ z hz; simp [chunkLoop] at hz
  | succ n ih =>
    intro s k hk hf z hz
    rcases hl : chunkLoop c o t (n + 1) s k with _ | ⟨a, rest⟩
    · rw [hl] at hz; simp at hz
    · obtain ⟨ha1, ha2, hst, hcur, hrest⟩ := chunkLoop_cons_inv hl
      have hrest' : rest = chunkLoop c o t n (s + (c - o)) (k + 1) := by
        simpa using hrest
      have hstep : (1 : ℤ) ≤ c - o := by omega
      have hf' : enoughFuel t (s + (c - o)) n := enoughFuel_step hf hst hstep
      have hcq : (1 : ℚ) ≤ (c : ℚ) := by exact_mod_cast (by omega : (1 : ℤ) ≤ c)
      have hoq : (0 : ℚ) ≤ (o : ℚ) := by exact_mod_cast h0
      rw [hl] at hz
      rcases hr : rest with _ | ⟨b, rest''⟩
      · rw [hr] at hz
        simp only [List.getLast?_singleton, Option.some.injEq] at hz
        subst hz
        -- the loop stopped right after this window: the next offset is
        -- either past the total duration or leaves less than 0.5s
        have hn1 : 1 ≤ n := by
          unfold enoughFuel at hf'
          omega
        obtain ⟨m, hm⟩ : ∃ m, n = m + 1 := ⟨n - 1, by omega⟩
        have hstop : chunkLoop c o t n (s + (c - o)) (k + 1) = [] := by
          rw [← hrest', hr]
        rw [hm, chunkLoop] at hstop
        have hkey : t - ((s : ℚ) + ((c : ℚ) - (o : ℚ))) < 0.5 := by
          split_ifs at hstop with hg1 hg2
          · -- first guard fired: min(chunk, remaining) < 0.5
            rcases min_lt_iff.mp hg1.1 with hlt | hlt
            · linarith
            · push_cast at hlt
              linarith
          · -- second guard fired: offset past total, or non-positive span
            rcases hg2 with hge | hle
            · push_cast at hge
              linarith
            · rcases min_le_iff.mp hle with hle' | hle'
              · linarith
              · push_cast at hle'
                linarith
        constructor
        · rw [ha2]
          rcases le_total (c : ℚ) (t - (s : ℚ)) with hmin | hmin
          · rw [min_eq_left hmin]
            linarith
          · rw [min_eq_right hmin]
            linarith
        · rw [ha2]
          calc (s : ℚ) + min (c : ℚ) (t - (s : ℚ))
              ≤ (s : ℚ) + (t - (s : ℚ)) := by
                exact add_le_add_left (min_le_right _ _) _
            _ = t := by ring
      · rw [hr] at hz
        rw [List.getLast?_cons_cons] at hz
        exact ih (s + (c - o)) (k + 1) (by omega) hf' z (by rw [← hr, hrest'] at hz; exact hz)

/-- With `0 < total_duration` and valid parameters the loop emits a first
window starting at offset `0` (the spec's "at least one window, unless the
duration is empty"). -/
theorem segmentWindows_head {c o : ℤ} {t : ℚ} (h0 : 0 ≤ o) (h1 : o < c)
    (ht : 0 < t) :
    (segmentWindows c o t).head? =
      some (0, min (c : ℚ) t) := by
  have hcq : (1 : ℚ) ≤ (c : ℚ) := by exact_mod_cast (by omega : (1 : ℤ) ≤ c)
  rw [segmentWindows, chunkLoop]
  rw [if_neg (by simp), if_neg ?_]
  · simp
  · push_neg
    push_cast
    constructor
    · simpa using ht
    · simp only [sub_zero]
      exact lt_min (by linarith) ht


/-- Chained windows with no gaps cover every instant from the first
window's start up to the last window's end. -/
theorem chain_coverage :
    ∀ (ws : List (ℤ × ℚ)), List.Chain' (fun a b => (b.1 : ℚ) ≤ a.2) ws →
      ∀ z, ws.getLast? = some z →
        ∀ q : ℚ, (∀ a ∈ ws.head?, (a.1 : ℚ) ≤ q) → q < z.2 →
          ∃ w ∈ ws, (w.1 : ℚ) ≤ q ∧ q < w.2 := by
  intro ws
  induction ws with
  | nil => intro _ z hz; simp at hz
  | cons a tail ih =>
    intro hch z hz q hqa hq2
    have hq1 : (a.1 : ℚ) ≤ q := hqa a rfl
    cases tail with
    | nil =>
      simp only [List.getLast?_singleton, Option.some.injEq] at hz
      subst hz
      exact ⟨a, List.mem_singleton_self a, hq1, hq2⟩
    | cons b tail' =>
      rcases lt_or_le q a.2 with hq | hq
      · exact ⟨a, List.mem_cons_self a _, hq1, hq⟩
      · have hch' := List.chain'_cons'.mp hch
        have hba : (b.1 : ℚ) ≤ a.2 := hch'.1 b rfl
        have hz' : (b :: tail').getLast? = some z := by
          rwa [List.getLast?_cons_cons] at hz
        have hhead : ∀ a' ∈ (b :: tail').head?, (a'.1 : ℚ) ≤ q := by
          intro a' ha'
          simp only [List.head?_cons, Option.mem_some_iff] at ha'
          subst ha'
          exact le_trans hba hq
        obtain ⟨w, hw, hw1, hw2⟩ := ih hch'.2 z hz' q hhead hq2
        exact ⟨w, List.mem_cons_of_mem a hw, hw1, hw2⟩

/-- C2 counterexample: with `chunk_duration=5`, `overlap=0` and
`total_duration=5.4` the produced windows are just `[0,5)`: the loop's
second stop condition (`remaining 0.4s < 0.5s` with one window already
produced) fires before the tail `[5, 5.4)` is covered, so the instant
`t = 5` of `[0, total_duration)` lies in no window and coverage of
`[0, total_duration)` fails. -/
theorem segment_full_coverage_refuted :
    ¬ segmenterCoversClaim 5 0 (27/5) := by
  intro h
  have hc : (⌈(27/5 : ℚ)⌉ : ℤ) = 6 := by
    rw [Int.ceil_eq_iff]
    norm_num
  have hs : segmentWindows 5 0 (27/5) = [(0, 5)] := by
    norm_num [segmentWindows, hc, chunkLoop, min_def]
  obtain ⟨w, hw, hle, hlt⟩ := h 5 (by norm_num) (by norm_num)
  rw [hs] at hw
  simp only [List.mem_singleton] at hw
  subst hw
  norm_num at hlt

/-- C2 amended: for all `total_duration > 0` and `0 ≤ overlap <
chunk_duration`, the segmenter emits a first window starting at offset 0;
every window starts before `total_duration` and ends at
`start + min(chunk_duration, total_duration - start)`; consecutive windows
advance by exactly one step and leave no gap; every consecutive pair whose
earlier window has full length overlaps by exactly `overlap` seconds; and
the windows cover `[0, e)` with no gaps, where `e` is the last window's
end, which is at most `total_duration` and within `0.5s` of it (a final
sliver shorter than `0.5s` may remain uncovered, and pairs whose earlier
window is already shortened may overlap by less). -/
theorem segment_coverage_overlap (c o : ℤ) (t : ℚ)
    (h0 : 0 ≤ o) (h1 : o < c) (ht : 0 < t) :
    (segmentWindows c o t).head? = some (0, min (c : ℚ) t) ∧
    (∀ w ∈ segmentWindows c o t,
      (w.1 : ℚ) < t ∧ w.2 = (w.1 : ℚ) + min (c : ℚ) (t - (w.1 : ℚ))) ∧
    List.Chain' (fun a b => b.1 = a.1 + (c - o) ∧ (b.1 : ℚ) ≤ a.2)
      (segmentWindows c o t) ∧
    List.Chain'
      (fun a b => a.2 = (a.1 : ℚ) + (c : ℚ) → a.2 - (b.1 : ℚ) = (o : ℚ))
      (segmentWindows c o t) ∧
    (∀ z, (segmentWindows c o t).getLast? = some z →
      t - z.2 < 0.5 ∧ z.2 ≤ t ∧
      ∀ q : ℚ, 0 ≤ q → q < z.2 →
        ∃ w ∈ segmentWindows c o t, (w.1 : ℚ) ≤ q ∧ q < w.2) := by
  have hf : enoughFuel t 0 ((⌈t⌉).toNat + 1) := by
    unfold enoughFuel
    omega
  have hhead := segmentWindows_head h0 h1 ht
  refine ⟨hhead, chunkLoop_mem _ _ _, chunkLoop_chain h0 _ _ _, ?_, ?_⟩
  · refine (chunkLoop_chain h0 _ _ _).imp ?_
    intro a b hab hfull
    rw [hab.1]
    push_cast
    linarith
  · intro z hz
    obtain ⟨hz1, hz2⟩ :=
      chunkLoop_last h0 h1 ((⌈t⌉).toNat + 1) 0 1 (le_refl 1) hf z hz
    refine ⟨hz1, hz2, ?_⟩
    intro q hq0 hqz
    refine chain_coverage _ ((chunkLoop_chain h0 _ _ _).imp ?_) z hz q ?_ hqz
    · intro a b hab
      exact hab.2
    · intro a ha
      have ha' : a ∈ (segmentWindows c o t).head? := ha
      rw [hhead] at ha'
      simp only [Option.mem_some_iff] at ha'
      subst ha'
      simpa using hq0

/-- C2 witness: the amended coverage-and-overlap guarantee instantiated at
the concrete parameters `chunk_duration=5`, `overlap=1`,
`total_duration=9`. -/
theorem segment_coverage_overlap_witness :
    (segmentWindows 5 1 9).head? = some (0, min ((5 : ℤ) : ℚ) 9) ∧
    (∀ w ∈ segmentWindows 5 1 9,
      (w.1 : ℚ) < 9 ∧ w.2 = (w.1 : ℚ) + min ((5 : ℤ) : ℚ) (9 - (w.1 : ℚ))) ∧
    List.Chain' (fun a b => b.1 = a.1 + (5 - 1) ∧ (b.1 : ℚ) ≤ a.2)
      (segmentWindows 5 1 9) ∧
    List.Chain'
      (fun a b =>
        a.2 = (a.1 : ℚ) + ((5 : ℤ) : ℚ) → a.2 - (b.1 : ℚ) = ((1 : ℤ) : ℚ))
      (segmentWindows 5 1 9) ∧
    (∀ z, (segmentWindows 5 1 9).getLast? = some z →
      9 - z.2 < 0.5 ∧ z.2 ≤ 9 ∧
      ∀ q : ℚ, 0 ≤ q → q < z.2 →
        ∃ w ∈ segmentWindows 5 1 9, (w.1 : ℚ) ≤ q ∧ q < w.2) :=
  segment_coverage_overlap 5 1 9 (by norm_num) (by norm_num) (by norm_num)

/-- C3: for every history whose considered window (the latest 5 records)
contains at least one record with `fire_smoke_detected = true`, the
predictor recommends the fire unit and reports fire or smoke, regardless
of all other fields of the records. -/
theorem predict_fire_forces_fire_unit (history : List AssessmentRecord)
    (hf : ∃ r ∈ predictWindow history, r.fire_smoke_detected = true) :
    (predict history).recommended_unit = RecommendedUnit.fire ∧
    (predict history).fire_or_smoke = true := by
  obtain ⟨r, hr, hfire⟩ := hf
  cases hwin : predictWindow history with
  | nil => rw [hwin] at hr; simp at hr
  | cons oldest rest =>
    rw [hwin] at hr
    have hany : (oldest :: rest).any (fun r => r.fire_smoke_detected) = true :=
      List.any_eq_true.mpr ⟨r, hr, hfire⟩
    unfold predict
    rw [hwin]
    simp [hany]

/-- C3 witness: a singleton history with the fire flag set makes the
predictor recommend the fire unit. -/
theorem predict_fire_forces_fire_unit_witness :
    (predict [fireRecord]).recommended_unit = RecommendedUnit.fire ∧
    (predict [fireRecord]).fire_or_smoke = true :=
  predict_fire_forces_fire_unit [fireRecord]
    ⟨fireRecord, by simp [predictWindow], rfl⟩

/-- C7: the predictor applied to the empty history returns the quiescent
state (no unit, all booleans false) and, being total, never fails; the
placeholder tool `predict_next_frame` of src/agents/predictor.py likewise
returns the quiescent response (`"None"`, all flags false). -/
theorem predict_empty_quiescent :
    (predict []).recommended_unit = RecommendedUnit.none ∧
    (predict []).density_increasing = false ∧
    (predict []).restricted_movement = false ∧
    (predict []).fire_or_smoke = false ∧
    predict_next_frame.unit_to_dispatch = "None" ∧
    predict_next_frame.crowd_density_increase = false ∧
    predict_next_frame.restricted_movements = false ∧
    predict_next_frame.fire_smoke_detected = false :=
  ⟨rfl, rfl, rfl, rfl, rfl, rfl, rfl, rfl⟩

/-- Ledger units never stand for "no unit". -/
theorem toRecommended_ne_none (u : DispatchUnitType) :
    u.toRecommended ≠ RecommendedUnit.none := by
  cases u <;> simp [DispatchUnitType.toRecommended]

/-- C4: whenever the recent-dispatch ledger contains an entry with the same
unit type as the decision and the same location (case-insensitive exact
match) issued within the cool-down window before `now`, the dispatch
engine's decision is suppressed with reason "duplicate" - so two
non-suppressed decisions for the same unit-location pair can never be
issued within the cool-down against a correctly maintained ledger. -/
theorem dispatch_duplicate_suppressed
    (trigger : AssessmentRecord ⊕ PredictedState) (location : String)
    (recent : List RecentDispatch) (now cooldown : ℚ)
    (hd : ∃ r ∈ recent, r.unit_type.toRecommended = triggerUnit trigger ∧
      lowerLoc r.location = lowerLoc location ∧
      now - cooldown < r.issued_at ∧ r.issued_at ≤ now) :
    (decideDispatch trigger location recent now cooldown).suppressed = true ∧
    (decideDispatch trigger location recent now cooldown).reason =
      "duplicate" := by
  obtain ⟨r, hr, h1, h2, h3, h4⟩ := hd
  have hunit : triggerUnit trigger ≠ RecommendedUnit.none := by
    rw [← h1]
    exact toRecommended_ne_none r.unit_type
  have hdup :
      isDuplicate (triggerUnit trigger) location recent now cooldown = true :=
    List.any_eq_true.mpr ⟨r, hr, decide_eq_true ⟨h1, h2, h3, h4⟩⟩
  unfold decideDispatch
  simp [hunit, hdup]

/-- C4 witness: police were dispatched to "platform 3" at time 100s; a
second police dispatch to "Platform 3" at time 160s (within the default
ten-minute cool-down) is suppressed as a duplicate, the location matching
case-insensitively. -/
theorem dispatch_duplicate_suppressed_witness :
    (decideDispatch (Sum.inr policePrediction) "Platform 3" platformLedger
      160 defaultCooldown).suppressed = true ∧
    (decideDispatch (Sum.inr policePrediction) "Platform 3" platformLedger
      160 defaultCooldown).reason = "duplicate" :=
  dispatch_duplicate_suppressed (Sum.inr policePrediction) "Platform 3"
    platformLedger 160 defaultCooldown
    ⟨{ unit_type := DispatchUnitType.police
       location := "platform 3"
       issued_at := 100 },
     by simp [platformLedger],
     rfl,
     by decide,
     by norm_num [defaultCooldown],
     by norm_num⟩

/-- Wrapping a text in a prefix with no opening brace and a suffix with no
braces does not change what the extraction step finds: the first opening
brace and the last closing brace are the same. -/
theorem extract_json_wrap (p q s : List Char)
    (hp : ∀ ch ∈ p, ch ≠ '\x7b')
    (hq1 : ∀ ch ∈ q, ch ≠ '\x7b')
    (hq2 : ∀ ch ∈ q, ch ≠ '\x7d') :
    extract_json (p ++ s ++ q) = extract_json s := by
  unfold extract_json
  have hpd : (p.dropWhile (fun ch => ch ≠ '\x7b')).isEmpty = true := by
    simp only [List.isEmpty_iff, List.dropWhile_eq_nil_iff]
    intro x hx
    simpa using hp x hx
  have hqd : (q.dropWhile (fun ch => ch ≠ '\x7b')).isEmpty = true := by
    simp only [List.isEmpty_iff, List.dropWhile_eq_nil_iff]
    intro x hx
    simpa using hq1 x hx
  have hqr : (q.reverse.dropWhile (fun ch => ch ≠ '\x7d')).isEmpty = true := by
    simp only [List.isEmpty_iff, List.dropWhile_eq_nil_iff]
    intro x hx
    simpa using hq2 x (List.mem_reverse.mp hx)
  rw [List.append_assoc, List.dropWhile_append, hpd]
  simp only [if_true]
  rw [List.dropWhile_append]
  rcases hcase : (s.dropWhile (fun ch => ch ≠ '\x7b')).isEmpty with _ | _
  · -- s contains an opening brace: the combined tail is s's tail ++ q
    simp only [hcase, if_false, Bool.false_eq_true]
    rw [List.reverse_append, List.dropWhile_append, hqr]
    simp
  · -- s has no opening brace at all: both sides find nothing
    simp only [hcase, if_true]
    have hs0 := List.isEmpty_iff.mp hcase
    have hq0 := List.isEmpty_iff.mp hqd
    simp only [ne_eq, decide_not] at hs0 hq0
    simp [hs0, hq0]

/-- C5: the analyzer-output parser accepts a JSON object even when the
model wraps it in markdown code fences, producing the same parsed text as
for the bare object (Scenario D), and it fails with the
"No JSON object found" error (the spec's MalformedAnalysisError) whenever
no JSON object is extractable. -/
theorem fenced_json_parses_identically :
    (∀ s : List Char,
      parse_analysis (fenceOpen ++ s ++ fenceClose) = parse_analysis s) ∧
    (∀ s : List Char, extract_json s = Option.none →
      parse_analysis s =
        Except.error "No JSON object found in response.") := by
  constructor
  · intro s
    unfold parse_analysis
    rw [extract_json_wrap fenceOpen fenceClose s (by decide) (by decide)
      (by decide)]
  · intro s hs
    unfold parse_analysis
    rw [hs]

/-- C5 witness: the fenced sample parses to the same result as the bare
JSON object, and prose with no JSON object fails with the
"No JSON object found" error. -/
theorem fenced_json_parses_identically_witness :
    parse_analysis (fenceOpen ++ jsonSample ++ fenceClose) =
      parse_analysis jsonSample ∧
    parse_analysis noJsonSample =
      Except.error "No JSON object found in response." :=
  ⟨fenced_json_parses_identically.1 jsonSample,
   fenced_json_parses_identically.2 noJsonSample (by decide)⟩

/-- C8 counterexample: when the analysis flags needed intervention, the
splitter's `main` hands the raw analysis JSON to the dispatcher topic;
that payload does not have the five-field dispatch shape (its keys are the
analyzer keys and it carries no `status` field), refuting the claim that
every payload handed to the publish channel has the dispatch shape. -/
theorem publish_payload_shape_refuted :
    splitter_publish severeAnalysis = some (analysis_payload severeAnalysis) ∧
    ¬ dispatchPayloadShapeClaim (analysis_payload severeAnalysis) := by
  constructor
  · simp [splitter_publish, severeAnalysis]
  · intro h
    simp [dispatchPayloadShapeClaim, analysis_payload] at h

/-- C8 amended: every payload built by the dispatch tool `dispatch_unit`
has exactly the fields unit_type, location, priority, timestamp, status,
with status "dispatched" and timestamp the serialized current clock (the
source serializes `datetime.now()` without a timezone marker, so the value
is only UTC when the process clock is); the video splitter additionally
hands raw analysis JSON to the same topic when intervention is flagged. -/
theorem dispatch_payload_shape (u l pr ts : String) :
    dispatchPayloadShapeClaim (dispatch_payload u l pr ts) ∧
    (dispatch_payload u l pr ts).lookup "timestamp" = some ts := by
  refine ⟨⟨rfl, ?_⟩, ?_⟩ <;> simp [dispatch_payload, List.lookup]

/-- C9 counterexample: a malformed incoming record (only `chunk_path`
present) makes `handle_event` return the validation-error response even
though non-empty recent history is available: processing does not continue
with the remaining history for that event. -/
theorem handle_event_malformed_aborts :
    validate_event badEventRecord = false ∧
    handle_event badEventRecord [goodEventRecord] =
      Except.error "Invalid event data structure" := by
  have hv : validate_event badEventRecord = false := by decide
  exact ⟨hv, by simp [handle_event, hv]⟩

/-- C9 amended: a record missing required fields always fails validation
and makes `handle_event` return the validation-error response (the flow
for that event stops; the remaining history is not separately analyzed),
while in the splitter's chunk loop a malformed analysis record (an "error"
key, or a missing "needs_security_intervention" key) is dropped and
processing continues with the chunks before and after it. -/
theorem malformed_record_handling :
    (∀ e recent, validate_event e = false →
      handle_event e recent = Except.error "Invalid event data structure") ∧
    (∀ pre bad post,
      ((bad.2.map Prod.fst).contains "error" = true ∨
        (bad.2.map Prod.fst).contains "needs_security_intervention" = false) →
      process_chunks (pre ++ bad :: post) =
        process_chunks pre ++ process_chunks post) := by
  constructor
  · intro e recent he
    simp [handle_event, he]
  · intro pre bad post hbad
    have hnone :
        (if (bad.2.map Prod.fst).contains "error" then
          (Option.none : Option (List (String × String)))
        else if ¬ (bad.2.map Prod.fst).contains "needs_security_intervention"
          then Option.none
        else some (bad.1 ++ bad.2)) = Option.none := by
      by_cases he : (bad.2.map Prod.fst).contains "error" = true
      · rw [if_pos he]
      · rw [if_neg he]
        rcases hbad with h | h
        · exact absurd h he
        · have hn :
              ¬ ((bad.2.map Prod.fst).contains
                "needs_security_intervention" = true) := by
            rw [h]
            exact Bool.false_ne_true
          rw [if_pos hn]
    unfold process_chunks
    rw [List.filterMap_append]
    simp only [List.filterMap_cons, hnone]

/-- C9 witness: the malformed event is rejected with the error response,
and a failed analysis in the middle of the chunk list is dropped while the
chunks before and after it are still processed. -/
theorem malformed_record_handling_witness :
    handle_event badEventRecord [goodEventRecord] =
      Except.error "Invalid event data structure" ∧
    process_chunks [(chunkRecord, okAnalysisRecord),
        (chunkRecord, errAnalysisRecord), (chunkRecord, okAnalysisRecord)] =
      process_chunks [(chunkRecord, okAnalysisRecord)] ++
        process_chunks [(chunkRecord, okAnalysisRecord)] :=
  ⟨malformed_record_handling.1 badEventRecord [goodEventRecord] (by decide),
   malformed_record_handling.2 [(chunkRecord, okAnalysisRecord)]
     (chunkRecord, errAnalysisRecord) [(chunkRecord, okAnalysisRecord)]
     (Or.inl (by decide))⟩

/-- C10: `get_recent_events` never propagates a backend failure: for every
limit and every error, it returns the empty list, and the event flow
proceeds exactly as it would with no recent history at all (the handler's
behaviour on the silently-empty history equals its behaviour on an
explicitly empty one). -/
theorem get_recent_events_error_empty (limit : ℕ) (msg : String) :
    get_recent_events limit (Except.error msg) = [] ∧
    get_recent_events limit (Except.error msg) =
      get_recent_events limit (Except.ok []) ∧
    ∀ e, handle_event e (get_recent_events limit (Except.error msg)) =
      handle_event e [] := by
  refine ⟨rfl, by simp [get_recent_events], fun e => rfl⟩
